import Mathlib

/-!
Shallow embedding of the flake8-import-policy plugin
(`src/flake8_import_policy/config.py` and `src/flake8_import_policy/plugin.py`).

External collaborators are modelled as function parameters:
* `place : String → SourceType` stands for `isort.place_module` composed with the
  section-to-SourceType dictionary in `Plugin._determine_source_type`;
* `isMod : String → Bool` stands for `Plugin._is_module` (the `__import__` probe).

Python generator functions are modelled as functions returning the list of all
values they yield; a generator whose body raises `AssertionError` before any
yield is modelled as `Except.error`.  The host tuple `(lineno, col_offset, msg,
type(self))` is modelled as the `Diag` record without the constant class
component.  `ast.walk` order is abstracted: a parsed tree is the list of AST
nodes in traversal order.
-/

/-- Python `str.endswith`, at the level of character lists. -/
def endswith (s suffix : String) : Bool :=
  suffix.data.isSuffixOf s.data

/-- Python `str.split('/')`, at the level of character lists. -/
def splitSlash (s : String) : List String :=
  (s.data.splitOn '/').map (fun l => String.mk l)

/-- `config.SourceConfig` (config.py): the policy for one origin. -/
structure SourceConfig where
  allow_absolute : Bool := false
  allow_from_module : Bool := false
  allow_from_member : Bool := false
deriving DecidableEq, Repr

/-- `config.Override` (config.py): a sparse patch, `none` = inherit. -/
structure Override where
  allow_absolute : Option Bool := none
  allow_from_module : Option Bool := none
  allow_from_member : Option Bool := none
deriving DecidableEq, Repr

/-- `Override.__or__` (config.py line 27):
`SourceConfig(**\x7b**source_config.asdict(), **self.omit_nones()\x7d)` —
the dict built from the base rule, updated by the override fields that are not
`None`, field by field. -/
def Override.or (o : Override) (source_config : SourceConfig) : SourceConfig :=
  { allow_absolute := o.allow_absolute.getD source_config.allow_absolute
    allow_from_module := o.allow_from_module.getD source_config.allow_from_module
    allow_from_member := o.allow_from_member.getD source_config.allow_from_member }

/-- `config.Config` (config.py), with the defaults written there.  Mappings are
modelled as association lists looked up by exact key equality (Python `dict`). -/
structure Config where
  overrides : List (String × Override)
  registered_aliases : List (String × String)
  check_init : Bool := false
  future : SourceConfig :=
    { allow_absolute := true, allow_from_module := true, allow_from_member := true }
  stdlib : SourceConfig := { allow_absolute := true }
  third_party : SourceConfig := { allow_absolute := true }
  first_party : SourceConfig := { allow_absolute := true, allow_from_module := true }
  max_relative_level : Int := 1
  allow_relative_from_module : Bool := true
  allow_relative_from_member : Bool := false
deriving Repr

/-- `SourceType` (plugin.py). -/
inductive SourceType where
  | FUTURE
  | STDLIB
  | THIRD_PARTY
  | FIRST_PARTY
deriving DecidableEq, Repr

/-- `FUTURE_IMPORT_VIOLATION` (plugin.py).  The template has no placeholder, so
`str.format` returns it unchanged. -/
def FUTURE_IMPORT_VIOLATION (_ : String) : String :=
  "FIP000 __future__ module import policy violation"

/-- `STDLIB_IMPORT_VIOLATION.format` (plugin.py). -/
def STDLIB_IMPORT_VIOLATION (arg : String) : String :=
  "FIP001 `" ++ arg ++ "` is forbidden"

/-- `THIRD_PARTY_IMPORT_VIOLATION.format` (plugin.py). -/
def THIRD_PARTY_IMPORT_VIOLATION (arg : String) : String :=
  "FIP002 `" ++ arg ++ "` is forbidden"

/-- `FIRST_PARTY_IMPORT_VIOLATION.format` (plugin.py). -/
def FIRST_PARTY_IMPORT_VIOLATION (arg : String) : String :=
  "FIP003 `" ++ arg ++ "` is forbidden"

/-- `RELATIVE_IMPORT_VIOLATION.format` (plugin.py). -/
def RELATIVE_IMPORT_VIOLATION (arg : String) : String :=
  "FIP004 `" ++ arg ++ "` is forbidden"

/-- `UNREGISTERED_ALIAS_ABUSE.format` (plugin.py). -/
def UNREGISTERED_ALIAS_ABUSE (module_name al : String) : String :=
  "FIP005 use of unregistered alias: `" ++ module_name ++ "` -> `" ++ al ++ "`"

/-- `ast.alias`: one imported name with its optional `as` alias. -/
structure ImportedName where
  name : String
  asname : Option String
deriving DecidableEq, Repr

/-- `ast.Import`: a plain `import a[, b as x]` statement. -/
structure ImportNode where
  lineno : Nat
  col_offset : Nat
  names : List ImportedName
deriving DecidableEq, Repr

/-- `ast.ImportFrom`: `from <module> import names`, `level` = leading dots. -/
structure ImportFromNode where
  lineno : Nat
  col_offset : Nat
  module : Option String
  names : List ImportedName
  level : Nat
deriving DecidableEq, Repr

/-- A node of the walked tree, as `Plugin.run` discriminates them. -/
inductive AstNode where
  | imp : ImportNode → AstNode
  | impFrom : ImportFromNode → AstNode
  | other : AstNode
deriving DecidableEq, Repr

/-- One diagnostic tuple yielded by `Plugin.run`, without the constant
`type(self)` component. -/
structure Diag where
  line : Nat
  col : Nat
  msg : String
deriving DecidableEq, Repr

namespace Plugin

/-- `Plugin._config_by_source` (plugin.py `__init__`). -/
def config_by_source (cfg : Config) : SourceType → SourceConfig
  | .FUTURE => cfg.future
  | .STDLIB => cfg.stdlib
  | .THIRD_PARTY => cfg.third_party
  | .FIRST_PARTY => cfg.first_party

/-- `Plugin._error_by_source` (plugin.py `__init__`). -/
def error_by_source : SourceType → String → String
  | .FUTURE => FUTURE_IMPORT_VIOLATION
  | .STDLIB => STDLIB_IMPORT_VIOLATION
  | .THIRD_PARTY => THIRD_PARTY_IMPORT_VIOLATION
  | .FIRST_PARTY => FIRST_PARTY_IMPORT_VIOLATION

/-- `Plugin._check_alias` (plugin.py lines 247-249). -/
def check_alias (cfg : Config) (module_name al : String) : List String :=
  if List.lookup module_name cfg.registered_aliases ≠ some al then
    [UNREGISTERED_ALIAS_ABUSE module_name al]
  else
    []

/-- `Plugin._get_config_and_error_template` (plugin.py lines 292-299):
`self._config.overrides.get(source_module, config.Override())` then
`override | source_config`. -/
def get_config_and_error_template (cfg : Config) (place : String → SourceType)
    (source_module : String) : SourceConfig × (String → String) :=
  let source_type := place source_module
  let source_config := config_by_source cfg source_type
  let override := (List.lookup source_module cfg.overrides).getD {}
  (Override.or override source_config, error_by_source source_type)

/-- The body of the loop in `Plugin._check_absolute_import`
(plugin.py lines 236-245), for one `ast.alias` entry. -/
def check_absolute_name (cfg : Config) (place : String → SourceType)
    (imported_module : ImportedName) : List String :=
  let module_name := imported_module.name
  let ce := get_config_and_error_template cfg place module_name
  (if !ce.1.allow_absolute then [ce.2 module_name] else []) ++
    (match imported_module.asname with
      | some al => check_alias cfg module_name al
      | none => [])

/-- `Plugin._check_absolute_import` (plugin.py lines 235-245). -/
def check_absolute_import (cfg : Config) (place : String → SourceType)
    (node : ImportNode) : List String :=
  node.names.flatMap (check_absolute_name cfg place)

/-- The from-form violation for one name in `Plugin._check_import_from`
(plugin.py lines 278-287): module-vs-member disambiguation, gates on
`allow_from_module` / `allow_from_member`. -/
def from_violation (source_config : SourceConfig) (error_template : String → String)
    (isMod : String → Bool) (source_module imported_object : String) : List String :=
  if isMod (source_module ++ "." ++ imported_object) then
    if !source_config.allow_from_module then
      [error_template ("from " ++ source_module ++ " import " ++ imported_object)]
    else []
  else if !source_config.allow_from_member then
    [error_template ("from " ++ source_module ++ " import " ++ imported_object)]
  else []

/-- The alias part of the loop bodies in `Plugin._check_import_from` and
`Plugin._check_relative_import` (plugin.py lines 288-290 and 331-334): check
the alias against the full path `source_module + "." + name`. -/
def from_alias_violation (cfg : Config) (source_module : String)
    (ioa : ImportedName) : List String :=
  match ioa.asname with
  | some al => check_alias cfg (source_module ++ "." ++ ioa.name) al
  | none => []

/-- The loop of `Plugin._check_import_from` (plugin.py lines 272-290).  A
wildcard name makes the generator return, discarding nothing already
yielded and yielding nothing further. -/
def check_from_names (cfg : Config) (source_config : SourceConfig)
    (error_template : String → String) (isMod : String → Bool)
    (source_module : String) : List ImportedName → List String
  | [] => []
  | ioa :: rest =>
    if ioa.name = "*" then []
    else
      from_violation source_config error_template isMod source_module ioa.name ++
        from_alias_violation cfg source_module ioa ++
        check_from_names cfg source_config error_template isMod source_module rest

/-- The synthesized absolute path of a relative import
(plugin.py lines 305-308): filename split on `/`, dropping `.` parts, truncated
by `level` components, dot-joined, then the explicit module appended. -/
def relative_source_module (filename : String) (level : Nat)
    (module : Option String) : String :=
  let parts := (splitSlash filename).filter (fun p => p ≠ ".")
  let source_module := String.intercalate "." (parts.take (parts.length - level))
  match module with
  | some m => source_module ++ "." ++ m
  | none => source_module

/-- The relative-form violation for one name in `Plugin._check_relative_import`
(plugin.py lines 316-327).  The cited text uses `node.module or ""` after the
dots. -/
def relative_violation (cfg : Config) (isMod : String → Bool)
    (source_module : String) (level : Nat) (module : Option String)
    (imported_object : String) : List String :=
  if isMod (source_module ++ "." ++ imported_object) then
    if !cfg.allow_relative_from_module then
      [RELATIVE_IMPORT_VIOLATION
        ("from " ++ String.mk (List.replicate level '.') ++ module.getD "" ++
          " import " ++ imported_object)]
    else []
  else if !cfg.allow_relative_from_member then
    [RELATIVE_IMPORT_VIOLATION
      ("from " ++ String.mk (List.replicate level '.') ++ module.getD "" ++
        " import " ++ imported_object)]
  else []

/-- The loop of `Plugin._check_relative_import` (plugin.py lines 310-334). -/
def check_relative_names (cfg : Config) (isMod : String → Bool)
    (source_module : String) (level : Nat) (module : Option String) :
    List ImportedName → List String
  | [] => []
  | ioa :: rest =>
    if ioa.name = "*" then []
    else
      relative_violation cfg isMod source_module level module ioa.name ++
        from_alias_violation cfg source_module ioa ++
        check_relative_names cfg isMod source_module level module rest

/-- `Plugin._check_relative_import` (plugin.py lines 300-334).  The assert
message in the source reads `Relative import's node.level must not be 0`.
When `node.level` exceeds `max_relative_level` the source executes
`return iter(RELATIVE_IMPORT_VIOLATION)` inside a generator function: the
returned value only becomes the `StopIteration` payload, which the calling
`yield from` discards, so the generator yields nothing for such a node. -/
def check_relative_import (cfg : Config) (isMod : String → Bool)
    (filename : String) (node : ImportFromNode) : Except String (List String) :=
  if node.level = 0 then
    .error "Relative import node.level must not be 0"
  else if (node.level : Int) > cfg.max_relative_level then
    .ok []
  else
    .ok (check_relative_names cfg isMod
      (relative_source_module filename node.level node.module)
      node.level node.module node.names)

/-- `Plugin._check_import_from` (plugin.py lines 259-290).  The assert message
in the source reads `node.module can't be None when import is not relative`. -/
def check_import_from (cfg : Config) (place : String → SourceType)
    (isMod : String → Bool) (filename : String) (node : ImportFromNode) :
    Except String (List String) :=
  if node.level > 0 then
    check_relative_import cfg isMod filename node
  else
    match node.module with
    | none => .error "node.module cannot be None when import is not relative"
    | some source_module =>
      let ce := get_config_and_error_template cfg place source_module
      .ok (check_from_names cfg ce.1 ce.2 isMod source_module node.names)

/-- The per-node part of `Plugin.run` (plugin.py lines 225-233): dispatch on
the node kind and attach the node position to every message. -/
def run_node (cfg : Config) (place : String → SourceType) (isMod : String → Bool)
    (filename : String) : AstNode → Except String (List Diag)
  | .imp node =>
    .ok ((check_absolute_import cfg place node).map
      (fun msg => ⟨node.lineno, node.col_offset, msg⟩))
  | .impFrom node =>
    (check_import_from cfg place isMod filename node).map
      (List.map (fun msg => ⟨node.lineno, node.col_offset, msg⟩))
  | .other => .ok []

/-- The walk loop of `Plugin.run`: diagnostics already yielded are kept when a
later node raises, and processing stops at the first raised assertion. -/
def run_tree (cfg : Config) (place : String → SourceType) (isMod : String → Bool)
    (filename : String) : List AstNode → List Diag × Option String
  | [] => ([], none)
  | node :: rest =>
    match run_node cfg place isMod filename node with
    | .error e => ([], some e)
    | .ok ds =>
      let r := run_tree cfg place isMod filename rest
      (ds ++ r.1, r.2)

/-- `Plugin.run` (plugin.py lines 222-233), including the `__init__.py`
exemption guard on lines 223-224. -/
def run (cfg : Config) (place : String → SourceType) (isMod : String → Bool)
    (filename : String) (tree : List AstNode) : List Diag × Option String :=
  if endswith filename "__init__.py" && !cfg.check_init then ([], none)
  else run_tree cfg place isMod filename tree

end Plugin

/-- A configuration with empty override table and alias registry and all
defaults from config.py. -/
def cfg0 : Config := { overrides := [], registered_aliases := [] }

/-- An origin oracle classifying everything as standard library. -/
def place_stdlib : String → SourceType := fun _ => SourceType.STDLIB

/-- A module-probe oracle answering that no path is an importable module. -/
def not_module : String → Bool := fun _ => false

/-- `cfg0` with the stdlib rule fully forbidden (all three flags false), as
produced by `--forbid-stdlib-absolute` without any allow flags. -/
def cfg_forbid : Config := { cfg0 with stdlib := {} }


section Helpers

/-- The all-`none` override is an identity for the merge. -/
theorem Override.or_default (s : SourceConfig) : Override.or {} s = s := rfl

/-- Association-list lookup only sees the entries whose key equals the key
looked up. -/
theorem lookup_filter_eq (m : String) (l : List (String × Override)) :
    List.lookup m (l.filter (fun kv => kv.1 == m)) = List.lookup m l := by
  induction l with
  | nil => rfl
  | cons kv rest ih =>
    obtain ⟨k, v⟩ := kv
    by_cases h : k = m
    · subst h
      simp [List.lookup]
    · have hb : (k == m) = false := beq_false_of_ne h
      have hb2 : (m == k) = false := beq_false_of_ne (Ne.symm h)
      simp [List.lookup, List.filter, hb, hb2, ih]

/-- The per-origin base-rule table does not depend on the override table. -/
theorem config_by_source_set_overrides (cfg : Config)
    (l : List (String × Override)) (st : SourceType) :
    Plugin.config_by_source { cfg with overrides := l } st =
      Plugin.config_by_source cfg st := by
  cases st <;> rfl

end Helpers

/-- C2: merging an `Override` onto a `SourceConfig` is field-independent and
biased toward the override: each field of the result is the override's value
when that field is `some`, and the base rule's value when it is `none`; the
all-`none` override is an identity for the merge. -/
theorem override_merge_right_biased (o : Override) (s : SourceConfig) :
    ((Override.or o s).allow_absolute =
      match o.allow_absolute with
      | some b => b
      | none => s.allow_absolute) ∧
    ((Override.or o s).allow_from_module =
      match o.allow_from_module with
      | some b => b
      | none => s.allow_from_module) ∧
    ((Override.or o s).allow_from_member =
      match o.allow_from_member with
      | some b => b
      | none => s.allow_from_member) ∧
    Override.or {} s = s := by
  obtain ⟨a, b, c⟩ := o
  refine ⟨?_, ?_, ?_, rfl⟩ <;> cases a <;> cases b <;> cases c <;> rfl

/-- C6: policy resolution returns the origin's base rule merged with the
override stored under the exact module path (an absent entry behaving as the
identity override) together with the origin's message template; resolution is
unchanged when the override table is restricted to the entries whose key is
string-equal to the path, so no prefix or glob matching takes place. -/
theorem resolve_exact_override_merge (cfg : Config) (place : String → SourceType)
    (m : String) :
    Plugin.get_config_and_error_template cfg place m =
      (Override.or ((List.lookup m cfg.overrides).getD {})
        (Plugin.config_by_source cfg (place m)),
        Plugin.error_by_source (place m)) ∧
    Plugin.get_config_and_error_template { cfg with overrides := [] } place m =
      (Plugin.config_by_source cfg (place m), Plugin.error_by_source (place m)) ∧
    Plugin.get_config_and_error_template cfg place m =
      Plugin.get_config_and_error_template
        { cfg with overrides := cfg.overrides.filter (fun kv => kv.1 == m) } place m := by
  refine ⟨rfl, ?_, ?_⟩
  · simp [Plugin.get_config_and_error_template, Override.or_default,
      config_by_source_set_overrides]
  · simp [Plugin.get_config_and_error_template, lookup_filter_eq,
      config_by_source_set_overrides]

/-- A string whose sixth character is not the digit 5 does not start with the
FIP005 code. -/
theorem not_fip005_of_get5 (msg : String) (c : Char)
    (hc : msg.data.get? 5 = some c) (hne : c ≠ '5') :
    ¬ ∃ t, msg = "FIP005 " ++ t := by
  rintro ⟨t, rfl⟩
  rw [show ("FIP005 " ++ t).data.get? 5 = some '5' from rfl] at hc
  exact hne (Option.some.inj hc).symm

/-- No per-origin violation template produces a message that starts with the
FIP005 code. -/
theorem error_by_source_not_fip005 (st : SourceType) (m : String) :
    ¬ ∃ t, Plugin.error_by_source st m = "FIP005 " ++ t := by
  cases st
  · exact not_fip005_of_get5 _ '0' rfl (by decide)
  · exact not_fip005_of_get5 _ '1' rfl (by decide)
  · exact not_fip005_of_get5 _ '2' rfl (by decide)
  · exact not_fip005_of_get5 _ '3' rfl (by decide)

/-- C4: the alias check emits a FIP005 violation exactly when the registry has
no entry for the canonical path or its entry differs from the alias used; the
message contains both the canonical path and the alias; and a plain-import
name that carries no alias never produces a FIP005 message. -/
theorem alias_check_exact_registry (cfg : Config) (p a : String) :
    (Plugin.check_alias cfg p a ≠ [] ↔
      (List.lookup p cfg.registered_aliases = none ∨
        ∃ b, List.lookup p cfg.registered_aliases = some b ∧ b ≠ a)) ∧
    (∀ msg ∈ Plugin.check_alias cfg p a,
      (∃ s t, msg = s ++ (p ++ t)) ∧ ∃ s t, msg = s ++ (a ++ t)) ∧
    (∀ (place : String → SourceType) (m : String),
      ∀ msg ∈ Plugin.check_absolute_name cfg place ⟨m, none⟩,
        ¬ ∃ t, msg = "FIP005 " ++ t) := by
  refine ⟨?_, ?_, ?_⟩
  · by_cases h : List.lookup p cfg.registered_aliases = some a
    · simp [Plugin.check_alias, h]
    · simp only [Plugin.check_alias, ne_eq, h, not_false_eq_true, if_true]
      constructor
      · intro _
        cases hl : List.lookup p cfg.registered_aliases with
        | none => exact Or.inl rfl
        | some b =>
          refine Or.inr ⟨b, rfl, ?_⟩
          intro hba
          exact h (hba ▸ hl)
      · intro _
        simp
  · intro msg hmsg
    by_cases h : List.lookup p cfg.registered_aliases = some a
    · simp [Plugin.check_alias, h] at hmsg
    · simp only [Plugin.check_alias, ne_eq, h, not_false_eq_true, if_true,
        List.mem_singleton] at hmsg
      subst hmsg
      constructor
      · exact ⟨"FIP005 use of unregistered alias: `", "` -> `" ++ a ++ "`",
          by simp [UNREGISTERED_ALIAS_ABUSE, String.append_assoc]⟩
      · exact ⟨"FIP005 use of unregistered alias: `" ++ p ++ "` -> `", "`",
          by simp [UNREGISTERED_ALIAS_ABUSE, String.append_assoc]⟩
  · intro place m msg hmsg
    by_cases hb : (Plugin.get_config_and_error_template cfg place m).1.allow_absolute
    · simp [Plugin.check_absolute_name, hb] at hmsg
    · simp only [Plugin.check_absolute_name, hb, Bool.not_false, if_true,
        List.append_nil, List.mem_singleton] at hmsg
      subst hmsg
      exact error_by_source_not_fip005 (place m) m

/-- Witness for C4 at concrete inputs. -/
theorem alias_check_exact_registry_witness :
    (Plugin.check_alias cfg0 "datetime" "dt" ≠ []) ∧
    ¬ ∃ t, "FIP001 `os` is forbidden" = "FIP005 " ++ t :=
  ⟨(alias_check_exact_registry cfg0 "datetime" "dt").1.mpr (Or.inl (by decide)),
    (alias_check_exact_registry cfg_forbid "dt" "dt").2.2 place_stdlib "os"
      "FIP001 `os` is forbidden" (by decide)⟩

/-- C7: for an `__init__.py` file with `check_init` false, `run` emits no
diagnostics (and no error) for any tree. -/
theorem init_file_exempt (cfg : Config) (place : String → SourceType)
    (isMod : String → Bool) (fn : String) (tree : List AstNode)
    (hinit : endswith fn "__init__.py" = true) (hcheck : cfg.check_init = false) :
    Plugin.run cfg place isMod fn tree = ([], none) := by
  simp [Plugin.run, hinit, hcheck]

/-- Witness for C7: an `__init__.py` file full of forbidden imports yields
nothing under the default configuration. -/
theorem init_file_exempt_witness :
    Plugin.run cfg_forbid place_stdlib not_module "pkg/__init__.py"
      [.imp ⟨1, 0, [⟨"os", none⟩]⟩,
       .impFrom ⟨2, 0, some "os", [⟨"path", none⟩], 0⟩] = ([], none) :=
  init_file_exempt cfg_forbid place_stdlib not_module "pkg/__init__.py" _
    (by decide) (by decide)

/-- C8: a from-import node with level 0 and no base module makes the decision
engine signal the internal assertion as an `Except.error`, which is never an
FIP-coded diagnostic list. -/
theorem absent_module_level0_internal_error (cfg : Config)
    (place : String → SourceType) (isMod : String → Bool) (fn : String)
    (node : ImportFromNode) (hlvl : node.level = 0) (hmod : node.module = none) :
    Plugin.check_import_from cfg place isMod fn node =
      .error "node.module cannot be None when import is not relative" ∧
    ∀ msgs, Plugin.check_import_from cfg place isMod fn node ≠ .ok msgs := by
  have h : Plugin.check_import_from cfg place isMod fn node =
      .error "node.module cannot be None when import is not relative" := by
    simp [Plugin.check_import_from, hlvl, hmod]
  exact ⟨h, fun msgs hok => by rw [h] at hok; exact Except.noConfusion hok⟩

/-- Witness for C8 at a concrete malformed node. -/
theorem absent_module_level0_internal_error_witness :
    Plugin.check_import_from cfg0 place_stdlib not_module "t.py"
      ⟨1, 0, none, [⟨"x", none⟩], 0⟩ =
      .error "node.module cannot be None when import is not relative" :=
  (absent_module_level0_internal_error cfg0 place_stdlib not_module "t.py"
    ⟨1, 0, none, [⟨"x", none⟩], 0⟩ rfl rfl).1

/-- C5: for a plain import of a module, when the effective rule forbids the
absolute form the engine emits exactly one violation built from that origin's
template citing the module path, placed at the statement's line and column;
when the rule allows it and no alias is present, it emits nothing.  The
stdlib and third-party templates are the FIP001 and FIP002 messages. -/
theorem plain_import_absolute_policy (cfg : Config) (place : String → SourceType)
    (isMod : String → Bool) (fn : String) (l c : Nat) (m : String)
    (hfile : (endswith fn "__init__.py" && !cfg.check_init) = false) :
    (∀ names, Plugin.check_absolute_import cfg place ⟨l, c, names⟩ =
      names.flatMap (Plugin.check_absolute_name cfg place)) ∧
    ((Plugin.get_config_and_error_template cfg place m).1.allow_absolute = false →
      Plugin.check_absolute_name cfg place ⟨m, none⟩ =
        [Plugin.error_by_source (place m) m] ∧
      Plugin.run cfg place isMod fn [.imp ⟨l, c, [⟨m, none⟩]⟩] =
        ([⟨l, c, Plugin.error_by_source (place m) m⟩], none)) ∧
    ((Plugin.get_config_and_error_template cfg place m).1.allow_absolute = true →
      Plugin.check_absolute_name cfg place ⟨m, none⟩ = [] ∧
      Plugin.run cfg place isMod fn [.imp ⟨l, c, [⟨m, none⟩]⟩] = ([], none)) ∧
    (place m = SourceType.STDLIB →
      Plugin.error_by_source (place m) m = "FIP001 `" ++ m ++ "` is forbidden") ∧
    (place m = SourceType.THIRD_PARTY →
      Plugin.error_by_source (place m) m = "FIP002 `" ++ m ++ "` is forbidden") := by
  refine ⟨fun names => rfl, ?_, ?_, ?_, ?_⟩
  · intro hforbid
    have htmpl : (Plugin.get_config_and_error_template cfg place m).2 =
        Plugin.error_by_source (place m) := rfl
    have hname : Plugin.check_absolute_name cfg place ⟨m, none⟩ =
        [Plugin.error_by_source (place m) m] := by
      simp [Plugin.check_absolute_name, hforbid, htmpl]
    refine ⟨hname, ?_⟩
    simp [Plugin.run, hfile, Plugin.run_tree, Plugin.run_node,
      Plugin.check_absolute_import, hname]
  · intro hallow
    have hname : Plugin.check_absolute_name cfg place ⟨m, none⟩ = [] := by
      simp [Plugin.check_absolute_name, hallow]
    refine ⟨hname, ?_⟩
    simp [Plugin.run, hfile, Plugin.run_tree, Plugin.run_node,
      Plugin.check_absolute_import, hname]
  · intro hst
    rw [hst]
    rfl
  · intro hst
    rw [hst]
    rfl

/-- Witness for C5: `import os` under a configuration forbidding stdlib
absolute imports, and under the default configuration. -/
theorem plain_import_absolute_policy_witness :
    Plugin.run cfg_forbid place_stdlib not_module "t.py"
      [.imp ⟨7, 2, [⟨"os", none⟩]⟩] =
      ([⟨7, 2, Plugin.error_by_source (place_stdlib "os") "os"⟩], none) ∧
    Plugin.run cfg0 place_stdlib not_module "t.py"
      [.imp ⟨7, 2, [⟨"os", none⟩]⟩] = ([], none) :=
  ⟨((plain_import_absolute_policy cfg_forbid place_stdlib not_module "t.py" 7 2 "os"
      (by decide)).2.1 (by decide)).2,
    ((plain_import_absolute_policy cfg0 place_stdlib not_module "t.py" 7 2 "os"
      (by decide)).2.2.1 (by decide)).2⟩

/-- The absolute from-loop stops at the first wildcard entry: names before it
keep their violations, the wildcard and everything after it are dropped. -/
theorem check_from_names_wildcard (cfg : Config) (sc : SourceConfig)
    (tmpl : String → String) (isMod : String → Bool) (sm : String)
    (al : Option String) (rest : List ImportedName) :
    ∀ pre : List ImportedName,
      Plugin.check_from_names cfg sc tmpl isMod sm (pre ++ ⟨"*", al⟩ :: rest) =
        Plugin.check_from_names cfg sc tmpl isMod sm pre := by
  intro pre
  induction pre with
  | nil => simp [Plugin.check_from_names]
  | cons a pre ih =>
    by_cases ha : a.name = "*"
    · simp [Plugin.check_from_names, ha]
    · simp [Plugin.check_from_names, ha, ih]

/-- The relative from-loop stops at the first wildcard entry in the same way. -/
theorem check_relative_names_wildcard (cfg : Config) (isMod : String → Bool)
    (sm : String) (lvl : Nat) (mo : Option String)
    (al : Option String) (rest : List ImportedName) :
    ∀ pre : List ImportedName,
      Plugin.check_relative_names cfg isMod sm lvl mo (pre ++ ⟨"*", al⟩ :: rest) =
        Plugin.check_relative_names cfg isMod sm lvl mo pre := by
  intro pre
  induction pre with
  | nil => simp [Plugin.check_relative_names]
  | cons a pre ih =>
    by_cases ha : a.name = "*"
    · simp [Plugin.check_relative_names, ha]
    · simp [Plugin.check_relative_names, ha, ih]

/-- C3 counterexample: a from-import clause whose second name is the wildcard
still emits the violation for the name before the wildcard, so a node
containing a wildcard does not always yield zero violations. -/
theorem wildcard_node_counterexample :
    Plugin.check_import_from cfg0 place_stdlib not_module "t.py"
      ⟨1, 0, some "os", [⟨"path", none⟩, ⟨"*", none⟩], 0⟩ =
      .ok ["FIP001 `from os import path` is forbidden"] ∧
    Plugin.check_import_from cfg0 place_stdlib not_module "t.py"
      ⟨1, 0, some "os", [⟨"path", none⟩, ⟨"*", none⟩], 0⟩ ≠
      .ok ([] : List String) := by
  refine ⟨rfl, ?_⟩
  intro h
  rw [show Plugin.check_import_from cfg0 place_stdlib not_module "t.py"
      ⟨1, 0, some "os", [⟨"path", none⟩, ⟨"*", none⟩], 0⟩ =
      .ok ["FIP001 `from os import path` is forbidden"] from rfl] at h
  exact List.cons_ne_nil _ _ (Except.ok.inj h)

/-- C3 amended: a wildcard entry suppresses the checks for itself and for every
name after it, so the node yields exactly the violations of the prefix before
the first wildcard; in particular a from-import whose only name is the
wildcard yields zero violations under every configuration and oracle. -/
theorem wildcard_truncates_clause (cfg : Config) (place : String → SourceType)
    (isMod : String → Bool) (fn : String) (l c : Nat) (mo : Option String)
    (lvl : Nat) (pre : List ImportedName) (al : Option String)
    (rest : List ImportedName) :
    Plugin.check_import_from cfg place isMod fn
        ⟨l, c, mo, pre ++ ⟨"*", al⟩ :: rest, lvl⟩ =
      Plugin.check_import_from cfg place isMod fn ⟨l, c, mo, pre, lvl⟩ ∧
    ∀ pkg : String,
      Plugin.check_import_from cfg place isMod fn
        ⟨l, c, some pkg, [⟨"*", al⟩], 0⟩ = .ok [] := by
  constructor
  · by_cases hlvl : lvl > 0
    · simp only [Plugin.check_import_from, hlvl, if_true]
      unfold Plugin.check_relative_import
      by_cases h0 : lvl = 0
      · omega
      · simp only [h0, if_false]
        by_cases hmax : (lvl : Int) > cfg.max_relative_level
        · simp [hmax]
        · simp [hmax, check_relative_names_wildcard]
    · simp only [Plugin.check_import_from, hlvl, if_false]
      cases mo with
      | none => rfl
      | some sm => simp [check_from_names_wildcard]
  · intro pkg
    simp [Plugin.check_import_from, Plugin.check_from_names]

/-- C1 evaluation at the failing input: with `max_relative_level = 1`, a
relative import of depth 2 yields zero violations (the source's
`return iter(RELATIVE_IMPORT_VIOLATION)` inside the generator discards the
value), not the single FIP004 violation the specification requires, while the
same node at depth 1 does get its per-name checks. -/
theorem deep_relative_import_emits_nothing :
    Plugin.check_import_from cfg0 place_stdlib not_module "pkg/sub/mod.py"
      ⟨1, 0, some "x", [⟨"member", none⟩], 2⟩ = .ok [] ∧
    Plugin.check_import_from cfg0 place_stdlib not_module "pkg/sub/mod.py"
      ⟨1, 0, some "x", [⟨"member", none⟩], 1⟩ =
      .ok ["FIP004 `from .x import member` is forbidden"] :=
  ⟨rfl, rfl⟩

/-- C9: when a from-import clause contains no wildcard, the emitted sequence
is the left-to-right concatenation over the names, each name contributing its
from-form violation followed by its alias violation, in both the absolute and
the relative case. -/
theorem from_clause_violation_order (cfg : Config) (place : String → SourceType)
    (isMod : String → Bool) (fn : String) (l c : Nat) (m : String)
    (mo : Option String) (lvl : Nat) (names : List ImportedName)
    (hw : ∀ a ∈ names, a.name ≠ "*") :
    (Plugin.check_import_from cfg place isMod fn ⟨l, c, some m, names, 0⟩ =
      .ok (names.flatMap (fun a =>
        Plugin.from_violation (Plugin.get_config_and_error_template cfg place m).1
            (Plugin.get_config_and_error_template cfg place m).2 isMod m a.name ++
          Plugin.from_alias_violation cfg m a))) ∧
    (0 < lvl → (lvl : Int) ≤ cfg.max_relative_level →
      Plugin.check_import_from cfg place isMod fn ⟨l, c, mo, names, lvl⟩ =
        .ok (names.flatMap (fun a =>
          Plugin.relative_violation cfg isMod
              (Plugin.relative_source_module fn lvl mo) lvl mo a.name ++
            Plugin.from_alias_violation cfg
              (Plugin.relative_source_module fn lvl mo) a))) := by
  constructor
  · simp only [Plugin.check_import_from, gt_iff_lt, Nat.lt_irrefl, if_false]
    congr 1
    induction names with
    | nil => rfl
    | cons a rest ih =>
      have ha : a.name ≠ "*" := hw a (List.mem_cons_self a rest)
      have ih2 := ih (fun x hx => hw x (List.mem_cons_of_mem a hx))
      simp only [Plugin.check_from_names, ha, if_false, List.flatMap_cons]
      rw [ih2]
  · intro hpos hle
    have hlvl0 : lvl ≠ 0 := Nat.pos_iff_ne_zero.mp hpos
    have hmax : ¬ ((lvl : Int) > cfg.max_relative_level) := not_lt.mpr hle
    simp only [Plugin.check_import_from, hpos, if_true, Plugin.check_relative_import,
      hlvl0, if_false, hmax]
    congr 1
    induction names with
    | nil => rfl
    | cons a rest ih =>
      have ha : a.name ≠ "*" := hw a (List.mem_cons_self a rest)
      have ih2 := ih (fun x hx => hw x (List.mem_cons_of_mem a hx))
      simp only [Plugin.check_relative_names, ha, if_false, List.flatMap_cons]
      rw [ih2]

/-- Witness for C9 at a concrete two-name clause. -/
theorem from_clause_violation_order_witness :
    Plugin.check_import_from cfg0 place_stdlib not_module "t.py"
      ⟨1, 0, some "os", [⟨"path", none⟩, ⟨"sep", some "s"⟩], 0⟩ =
      .ok ([⟨"path", none⟩, ⟨"sep", some "s"⟩].flatMap (fun a =>
        Plugin.from_violation
            (Plugin.get_config_and_error_template cfg0 place_stdlib "os").1
            (Plugin.get_config_and_error_template cfg0 place_stdlib "os").2
            not_module "os" a.name ++
          Plugin.from_alias_violation cfg0 "os" a)) :=
  (from_clause_violation_order cfg0 place_stdlib not_module "t.py" 1 0 "os"
    none 0 [⟨"path", none⟩, ⟨"sep", some "s"⟩] (by decide)).1

/-- The diagnostic carries exactly the position of the given AST node. -/
def diag_at : AstNode → Diag → Prop
  | .imp n, d => d.line = n.lineno ∧ d.col = n.col_offset
  | .impFrom n, d => d.line = n.lineno ∧ d.col = n.col_offset
  | .other, _ => False

/-- Every diagnostic produced for one node carries that node's position. -/
theorem run_node_position (cfg : Config) (place : String → SourceType)
    (isMod : String → Bool) (fn : String) (node : AstNode) (ds : List Diag)
    (h : Plugin.run_node cfg place isMod fn node = .ok ds) :
    ∀ d ∈ ds, diag_at node d := by
  intro d hd
  cases node with
  | imp n =>
    simp only [Plugin.run_node, Except.ok.injEq] at h
    subst h
    obtain ⟨msg, _, rfl⟩ := List.mem_map.mp hd
    exact ⟨rfl, rfl⟩
  | impFrom n =>
    cases hc : Plugin.check_import_from cfg place isMod fn n with
    | error e => simp [Plugin.run_node, hc, Except.map] at h
    | ok msgs =>
      simp only [Plugin.run_node, hc, Except.map, Except.ok.injEq] at h
      subst h
      obtain ⟨msg, _, rfl⟩ := List.mem_map.mp hd
      exact ⟨rfl, rfl⟩
  | other =>
    simp only [Plugin.run_node, Except.ok.injEq] at h
    subst h
    exact absurd hd (List.not_mem_nil d)

/-- Every diagnostic of the walk comes from a node of the tree at that node's
own position. -/
theorem run_tree_position (cfg : Config) (place : String → SourceType)
    (isMod : String → Bool) (fn : String) :
    ∀ tree : List AstNode, ∀ d ∈ (Plugin.run_tree cfg place isMod fn tree).1,
      ∃ node ∈ tree, diag_at node d := by
  intro tree
  induction tree with
  | nil => intro d hd; exact absurd hd (List.not_mem_nil d)
  | cons node rest ih =>
    intro d hd
    simp only [Plugin.run_tree] at hd
    cases hc : Plugin.run_node cfg place isMod fn node with
    | error e => simp [hc] at hd
    | ok ds =>
      rw [hc] at hd
      simp only [List.mem_append] at hd
      cases hd with
      | inl hin =>
        exact ⟨node, List.mem_cons_self node rest,
          run_node_position cfg place isMod fn node ds hc d hin⟩
      | inr hin =>
        obtain ⟨n2, hn2, hat⟩ := ih d hin
        exact ⟨n2, List.mem_cons_of_mem node hn2, hat⟩

/-- C10: every diagnostic emitted by `run` carries the line number and column
offset of the statement node it came from, and all diagnostics of one node
share that node's position. -/
theorem run_diagnostics_carry_node_position (cfg : Config)
    (place : String → SourceType) (isMod : String → Bool) (fn : String) :
    (∀ node ds, Plugin.run_node cfg place isMod fn node = .ok ds →
      ∀ d ∈ ds, diag_at node d) ∧
    (∀ tree : List AstNode, ∀ d ∈ (Plugin.run cfg place isMod fn tree).1,
      ∃ node ∈ tree, diag_at node d) := by
  refine ⟨fun node ds h => run_node_position cfg place isMod fn node ds h, ?_⟩
  intro tree d hd
  by_cases hg : (endswith fn "__init__.py" && !cfg.check_init) = true
  · rw [Plugin.run, if_pos hg] at hd
    exact absurd hd (List.not_mem_nil d)
  · rw [Plugin.run, if_neg hg] at hd
    exact run_tree_position cfg place isMod fn tree d hd

/-- Witness for C10: the diagnostic of a concrete statement at line 3, column
4 carries exactly that position. -/
theorem run_diagnostics_carry_node_position_witness :
    diag_at (.impFrom ⟨3, 4, some "os", [⟨"path", none⟩], 0⟩)
      ⟨3, 4, "FIP001 `from os import path` is forbidden"⟩ :=
  (run_diagnostics_carry_node_position cfg0 place_stdlib not_module "t.py").1
    (.impFrom ⟨3, 4, some "os", [⟨"path", none⟩], 0⟩)
    [⟨3, 4, "FIP001 `from os import path` is forbidden"⟩] rfl
    ⟨3, 4, "FIP001 `from os import path` is forbidden"⟩ (by decide)
